import Mathlib

/-!
Verification of `terraform/functions/cluster_protection/main.py`: a GCP cloud
function that waits for a GKE cluster to become ready and idempotently installs
the CrowdStrike Falcon operator and a FalconDeployment custom resource.

The embedding is shallow: the YAML/JSON manifest dictionaries become an
inductive value type with Python-dict update semantics (insertion order kept,
assignment replaces in place or appends); the Kubernetes and GKE API calls
become explicit response streams supplied as parameters; exceptions become
`Except` / explicit outcome values; the two polling loops become recursions
(the cluster-status loop carries its counter exactly as the source does, plus
a structural fuel argument that at the entry point equals the greatest number
of iterations the counter guard permits, so the fuel-exhausted branch is
unreachable from the entry point).
-/

/-- Python values appearing in the manifest dictionaries of `main.py`:
strings, booleans, dicts (insertion-ordered association lists) and lists. -/
inductive YVal where
  | str : String → YVal
  | bool : Bool → YVal
  | map : List (String × YVal) → YVal
  | list : List YVal → YVal

/-- Python `d[k]` lookup on an insertion-ordered dict (first binding wins;
a dict built by `dictSet` never has duplicate keys). -/
def dictGet (d : List (String × YVal)) (k : String) : Option YVal :=
  match d with
  | [] => none
  | (k2, v) :: rest => if k2 = k then some v else dictGet rest k

/-- Python `k in d`. -/
def dictHas (d : List (String × YVal)) (k : String) : Bool :=
  (dictGet d k).isSome

/-- Python `d[k] = v`: replace the binding in place if the key exists,
otherwise append it, preserving insertion order. -/
def dictSet (d : List (String × YVal)) (k : String) (v : YVal) : List (String × YVal) :=
  match d with
  | [] => [(k, v)]
  | (k2, v2) :: rest => if k2 = k then (k2, v) :: rest else (k2, v2) :: dictSet rest k v

/-- Python `d.update(other)`: assign every binding of `other` into `d`
in order. -/
def dictUpdate (d other : List (String × YVal)) : List (String × YVal) :=
  other.foldl (fun acc kv => dictSet acc kv.1 kv.2) d

/-- Python `d[k][k2] = v` where `d[k]` is a dict: mutate the nested dict in
place. -/
def dictSetIn (d : List (String × YVal)) (k k2 : String) (v : YVal) : List (String × YVal) :=
  d.map (fun kv =>
    if kv.1 = k then
      (kv.1, match kv.2 with
             | .map inner => YVal.map (dictSet inner k2 v)
             | other => other)
    else kv)

/-- Deterministic rendering of a manifest value, modelling the
`yaml.dump(manifest)` serialization step of
`configure_falcon_deployment_manifest` (main.py line 176). The concrete
formatting of PyYAML is not reproduced; what matters for the claims is that
serialization is a function of the in-memory value. -/
def yaml_dump : YVal → String
  | .str s => s
  | .bool b => if b then "true" else "false"
  | .map kvs =>
    "\x7b" ++ String.intercalate ", " (kvs.attach.map (fun kv => kv.1.1 ++ ": " ++ yaml_dump kv.1.2)) ++ "\x7d"
  | .list vs =>
    "[" ++ String.intercalate ", " (vs.attach.map (fun v => yaml_dump v.1)) ++ "]"
decreasing_by
  · obtain ⟨⟨k, v⟩, hmem⟩ := kv
    have := List.sizeOf_lt_of_mem hmem
    simp at this ⊢
    omega
  · obtain ⟨v, hmem⟩ := v
    have := List.sizeOf_lt_of_mem hmem
    simp at this ⊢
    omega

/-- main.py line 27. -/
def MAX_CLUSTER_STATUS_CHECK_COUNT : Nat := 20

/-- main.py line 28. -/
def POD_READY_STATE_SECONDS_TO_SLEEP : Nat := 10

/-- main.py line 33. -/
def FALCON_OPERATOR_URL : String :=
  "https://github.com/crowdstrike/falcon-operator/releases/latest/download/falcon-operator.yaml"

/-- The environment-sourced configuration read at module import
(main.py lines 34-39). `FALCON_AUTO_UPDATE` defaults to "off", the rest of
the optional values default to the empty string. -/
structure Config where
  FALCON_CLIENT_ID : String
  FALCON_CLIENT_SECRET : String
  FALCON_AUTO_UPDATE : String
  FALCON_UPDATE_POLICY : String
  FALCON_SENSOR_VERSION : String
  FALCON_SENSOR_TAGS : String
deriving DecidableEq

/-- `configure_falcon_deployment_manifest` (main.py lines 105-181): builds the
FalconDeployment manifest dict from the configuration and the autopilot flag.
Python truthiness of the optional strings is nonemptiness. The source builds
the full manifest dict first and then mutates `manifest["spec"]`; here the
spec dict is threaded through the same updates in the same order and placed
into the manifest at the end, which yields the identical dict. -/
def configure_falcon_deployment_manifest (cfg : Config) (is_autopilot : Bool) : YVal :=
  let spec : List (String × YVal) :=
    [("falcon_api", .map [("client_id", .str cfg.FALCON_CLIENT_ID),
                          ("client_secret", .str cfg.FALCON_CLIENT_SECRET),
                          ("cloud_region", .str "us-2")]),
     ("deployAdmissionController", .bool true),
     ("deployNodeSensor", .bool true),
     ("deployImageAnalyzer", .bool false),
     ("deployContainerSensor", .bool false)]
  let autopilot_config : List (String × YVal) :=
    [("backend", .str "bpf"),
     ("gke", .map [("autopilot", .bool true)]),
     ("resources", .map [("requests", .map [("cpu", .str "750m"), ("memory", .str "1.5Gi")])]),
     ("tolerations", .list [.map [("effect", .str "NoSchedule"), ("operator", .str "Equal"),
                                  ("key", .str "kubernetes.io/arch"), ("value", .str "amd64")]])]
  let node_config : List (String × YVal) := []
  let node_config :=
    if cfg.FALCON_AUTO_UPDATE ≠ "off" ∨ cfg.FALCON_UPDATE_POLICY ≠ "" then
      let advanced : List (String × YVal) := []
      let advanced :=
        if cfg.FALCON_AUTO_UPDATE ≠ "off" then
          dictSet advanced "autoUpdate" (.str cfg.FALCON_AUTO_UPDATE)
        else advanced
      let advanced :=
        if cfg.FALCON_UPDATE_POLICY ≠ "" then
          dictSet advanced "updatePolicy" (.str cfg.FALCON_UPDATE_POLICY)
        else advanced
      dictSet node_config "advanced" (.map advanced)
    else node_config
  let node_config :=
    if cfg.FALCON_SENSOR_VERSION ≠ "" then
      dictSet node_config "version" (.str cfg.FALCON_SENSOR_VERSION)
    else node_config
  let node_config :=
    if is_autopilot then dictUpdate node_config autopilot_config else node_config
  let spec :=
    if cfg.FALCON_SENSOR_TAGS ≠ "" then
      let spec := if ¬ dictHas spec "falcon" then dictSet spec "falcon" (.map []) else spec
      dictSetIn spec "falcon" "tags" (.str cfg.FALCON_SENSOR_TAGS)
    else spec
  let spec := dictSet spec "falconNodeSensor" (.map [("node", .map node_config)])
  .map [("apiVersion", .str "falcon.crowdstrike.com/v1alpha1"),
        ("kind", .str "FalconDeployment"),
        ("metadata", .map [("name", .str "falcon-deployment")]),
        ("spec", .map spec)]

/-- The `spec` sub-dict of a manifest. -/
def manifestSpec (m : YVal) : List (String × YVal) :=
  match m with
  | .map kvs =>
    match dictGet kvs "spec" with
    | some (.map s) => s
    | _ => []
  | _ => []

/-- A named sub-dict of a dict (empty if absent or not a dict). -/
def subMap (d : List (String × YVal)) (k : String) : List (String × YVal) :=
  match dictGet d k with
  | some (.map s) => s
  | _ => []

/-- The `spec.falconNodeSensor.node` sub-dict of a manifest. -/
def manifestNode (m : YVal) : List (String × YVal) :=
  subMap (subMap (manifestSpec m) "falconNodeSensor") "node"

/-- The `spec.falcon` sub-dict of a manifest. -/
def manifestFalcon (m : YVal) : List (String × YVal) :=
  subMap (manifestSpec m) "falcon"

/-- An exception escaping a Kubernetes client call: either an
`ApiException` carrying its HTTP status, or any other exception. -/
inductive KubeErr where
  | apiException (status : Nat)
  | exn (msg : String)
deriving DecidableEq

/-- The responses the Kubernetes API server gives to the calls this handler
makes, one field per call site; `list_namespaced_pod` is indexed by how many
pod-list calls were made before, since the pod list evolves while the handler
polls. -/
structure KubeApi where
  read_namespace : String → Except KubeErr Unit
  list_namespaced_pod : Nat → Except KubeErr (List String)
  list_cluster_custom_object : Except KubeErr (List YVal)
  create_from_yaml : String → Except KubeErr Unit
  create_custom_object : YVal → String → Except KubeErr Unit

/-- `check_resources_deployed` (main.py lines 184-221): read the namespace; an
`ApiException` with status 404 means "not deployed" (False), any other
exception is re-raised; if the namespace exists, list its pods and report
whether the pod list is non-empty (any listing exception is re-raised). The
second component of the result counts the `list_namespaced_pod` calls made,
so the caller can continue the pod-list response stream. -/
def check_resources_deployed (api : KubeApi) (namespace_name : String) :
    Except KubeErr (Bool × Nat) :=
  match api.read_namespace namespace_name with
  | .error (.apiException status) =>
    if status = 404 then .ok (false, 0) else .error (.apiException status)
  | .error (.exn msg) => .error (.exn msg)
  | .ok _ =>
    match api.list_namespaced_pod 0 with
    | .error e => .error e
    | .ok pod_list => if pod_list.length > 0 then .ok (true, 1) else .ok (false, 1)

/-- `check_pods_are_ready` (main.py lines 224-243): true iff some pod in the
list has phase "Running". -/
def check_pods_are_ready (pod_list : List String) : Bool :=
  pod_list.any (fun phase => phase == "Running")

/-- Outcome of `deploy_operator`. -/
inductive OpOutcome where
  | completed (sleeps : Nat)
  | stillWaiting
  | raised (e : KubeErr)
deriving DecidableEq

/-- The unbounded pod-readiness `while` loop at the end of `deploy_operator`
(main.py lines 283-290): call `check_pods_are_ready`, sleep and retry until
some pod is Running. `i` indexes the pod-list response stream, `fuel` bounds
the recursion; running out of fuel yields `stillWaiting`, modelling that the
source loop has no iteration bound and simply has not terminated yet. -/
def pod_ready_wait (api : KubeApi) : Nat → Nat → Nat → OpOutcome
  | i, sleeps, fuel =>
    match api.list_namespaced_pod i with
    | .error e => .raised e
    | .ok pods =>
      if check_pods_are_ready pods then .completed sleeps
      else
        match fuel with
        | 0 => .stillWaiting
        | fuel' + 1 => pod_ready_wait api (i + 1) (sleeps + 1) fuel'

/-- Result of `deploy_operator`: the list of `create_from_yaml` calls made
(by file name) and the outcome. -/
structure OpResult where
  applies : List String
  outcome : OpOutcome

/-- `deploy_operator` (main.py lines 255-293): skip the apply when
`check_resources_deployed` reports the falcon-operator namespace populated,
otherwise apply the downloaded operator manifest once (re-raising any apply
failure), then block until some pod in the namespace is Running. -/
def deploy_operator (api : KubeApi) (fuel : Nat) : OpResult :=
  match check_resources_deployed api "falcon-operator" with
  | .error e => ⟨[], .raised e⟩
  | .ok (true, n) => ⟨[], pod_ready_wait api n 0 fuel⟩
  | .ok (false, n) =>
    match api.create_from_yaml "falcon_operator.yaml" with
    | .error e => ⟨["falcon_operator.yaml"], .raised e⟩
    | .ok _ => ⟨["falcon_operator.yaml"], pod_ready_wait api n 0 fuel⟩

/-- `list_falcon_deployments` (main.py lines 296-326): list the cluster-scoped
FalconDeployment custom resources; an `ApiException` with status 404 yields
the empty list, any other exception is re-raised. -/
def list_falcon_deployments (api : KubeApi) : Except KubeErr (List YVal) :=
  match api.list_cluster_custom_object with
  | .ok falcon_deployments => .ok falcon_deployments
  | .error (.apiException status) =>
    if status = 404 then .ok [] else .error (.apiException status)
  | .error (.exn msg) => .error (.exn msg)

/-- Result of `deploy_falcon_manifest`: the create calls made (body and
namespace) and the outcome. -/
structure FdResult where
  creates : List (YVal × String)
  outcome : Except KubeErr Unit

/-- `deploy_falcon_manifest` (main.py lines 329-360): if no FalconDeployment
exists, create the rendered manifest in the falcon-operator namespace,
re-raising any creation failure; otherwise skip and return normally. -/
def deploy_falcon_manifest (api : KubeApi) (manifest_json : YVal) : FdResult :=
  match list_falcon_deployments api with
  | .error e => ⟨[], .error e⟩
  | .ok deployments =>
    if deployments.length = 0 then
      match api.create_custom_object manifest_json "falcon-operator" with
      | .error e => ⟨[(manifest_json, "falcon-operator")], .error e⟩
      | .ok _ => ⟨[(manifest_json, "falcon-operator")], .ok ()⟩
    else ⟨[], .ok ()⟩

/-- Python `asset_name.split("/")` on the character list of the string:
splitting "" gives [""], consecutive separators give empty segments. -/
def splitSegs : List Char → List (List Char)
  | [] => [[]]
  | c :: rest =>
    let segs := splitSegs rest
    if c = '/' then [] :: segs
    else
      match segs with
      | s :: t => (c :: s) :: t
      | [] => [[c]]

/-- Identity extraction in `main` (main.py lines 59-61):
`cluster_name = asset_name.split("/")[8]`, `project_id = ...[4]`,
`zone = ...[6]`; indexing past the end raises `IndexError`, which the
surrounding handler logs and re-raises. -/
def extract_identity (asset_name : String) : Except String (String × String × String) :=
  let parts := splitSegs asset_name.data
  if 9 ≤ parts.length then
    .ok (String.mk (parts.getD 8 []), String.mk (parts.getD 4 []), String.mk (parts.getD 6 []))
  else
    .error "IndexError: list index out of range"

/-- The unmanageable-state list of main.py line 77. -/
def unmanageableStatuses : List String :=
  ["STOPPING", "ERROR", "DEGRADED", "STATUS_UNSPECIFIED"]

/-- Observable behaviour of the cluster-status `while` loop: how many times
the status was fetched, how many 60-second sleeps were taken, whether the
loop exited through the unmanageable-state `return`, and the status the loop
ended on. -/
structure PollState where
  fetches : Nat
  sleeps : Nat
  unmanageable : Bool
  lastStatus : String
deriving DecidableEq

/-- The cluster-readiness loop of `main` (main.py lines 70-85):
`while cluster_status != "RUNNING" and counter <= MAX_CLUSTER_STATUS_CHECK_COUNT`,
fetch the cluster and its status (`fetch i` is the status the i-th
`get_cluster` call reports), return early on an unmanageable status, sleep on
PROVISIONING, and increment the counter each iteration. `fuel` is structural
bookkeeping only: `run_status_loop` enters with
`fuel = MAX_CLUSTER_STATUS_CHECK_COUNT + 1 - counter`, which the counter guard
keeps positive, so the fuel-exhausted branch is unreachable from the entry
point. -/
def cluster_status_loop (fetch : Nat → String) : Nat → String → Nat → Nat → Nat → PollState
  | fuel, cluster_status, counter, fetches, sleeps =>
    if cluster_status ≠ "RUNNING" ∧ counter ≤ MAX_CLUSTER_STATUS_CHECK_COUNT then
      match fuel with
      | 0 => ⟨fetches, sleeps, false, cluster_status⟩
      | fuel' + 1 =>
        let s := fetch fetches
        if s ∈ unmanageableStatuses then ⟨fetches + 1, sleeps, true, s⟩
        else
          cluster_status_loop fetch fuel' s (counter + 1) (fetches + 1)
            (if s = "PROVISIONING" then sleeps + 1 else sleeps)
    else ⟨fetches, sleeps, false, cluster_status⟩

/-- The cluster-readiness loop entered as `main` enters it:
`cluster_status = ""`, `cluster_status_check_counter = 0`. -/
def run_status_loop (fetch : Nat → String) : PollState :=
  cluster_status_loop fetch (MAX_CLUSTER_STATUS_CHECK_COUNT + 1) "" 0 0 0

/-- An exception escaping `main`: the IndexError from identity extraction or
an exception from the Kubernetes calls (all are logged and re-raised by the
handler's catch-all). -/
inductive MainErr where
  | indexError
  | kube (e : KubeErr)
deriving DecidableEq

/-- How an invocation of `main` ends: a normal return, a re-raised exception,
or still blocked inside the unbounded pod-readiness wait. -/
inductive MainOutcome where
  | returned
  | raised (e : MainErr)
  | waiting
deriving DecidableEq

/-- Observable behaviour of one invocation of `main`: status fetches and
status-loop sleeps, operator-manifest downloads, the index of the fetched
cluster object handed to `get_kube_clients` (main.py line 92), the
FalconDeployment manifest built (main.py line 89, always with
`is_autopilot = True` from line 62), the `create_from_yaml` calls, the
custom-object create calls, and the outcome. -/
structure MainResult where
  fetches : Nat
  statusSleeps : Nat
  downloads : Nat
  usedClusterIdx : Option Nat
  builtManifest : Option YVal
  applies : List String
  creates : List (YVal × String)
  outcome : MainOutcome

namespace Handler

/-- `main` (main.py lines 42-102), modelled from the decoded asset name
onward (the base64/JSON decode of the payload is outside the model): extract
the identity fields, run the cluster-readiness loop, return silently on an
unmanageable status, otherwise download the operator manifest, build the
FalconDeployment manifest with `is_autopilot = True`, deploy the operator and
then the FalconDeployment, re-raising every exception. -/
def main (cfg : Config) (asset_name : String) (fetch : Nat → String) (api : KubeApi)
    (fuel : Nat) : MainResult :=
  match extract_identity asset_name with
  | .error _ => ⟨0, 0, 0, none, none, [], [], .raised .indexError⟩
  | .ok _ =>
    let poll := run_status_loop fetch
    if poll.unmanageable then
      ⟨poll.fetches, poll.sleeps, 0, none, none, [], [], .returned⟩
    else
      let falcon_deployment_manifest := configure_falcon_deployment_manifest cfg true
      let op := deploy_operator api fuel
      match op.outcome with
      | .raised e =>
        ⟨poll.fetches, poll.sleeps, 1, some (poll.fetches - 1), some falcon_deployment_manifest,
         op.applies, [], .raised (.kube e)⟩
      | .stillWaiting =>
        ⟨poll.fetches, poll.sleeps, 1, some (poll.fetches - 1), some falcon_deployment_manifest,
         op.applies, [], .waiting⟩
      | .completed _ =>
        let fd := deploy_falcon_manifest api falcon_deployment_manifest
        match fd.outcome with
        | .error e =>
          ⟨poll.fetches, poll.sleeps, 1, some (poll.fetches - 1), some falcon_deployment_manifest,
           op.applies, fd.creates, .raised (.kube e)⟩
        | .ok _ =>
          ⟨poll.fetches, poll.sleeps, 1, some (poll.fetches - 1), some falcon_deployment_manifest,
           op.applies, fd.creates, .returned⟩

end Handler


/-- A sample configuration with every optional setting at its default. -/
def cfgW : Config :=
  ⟨"sample-client-id", "sample-client-secret", "off", "", "", ""⟩

/-- A sample configuration with every optional setting present. -/
def cfgFull : Config :=
  ⟨"sample-client-id", "sample-client-secret", "force", "platform_default", "7.10.0-16303", "web,dev"⟩

/-- A well-formed asset name with nine slash-delimited segments. -/
def assetW : String :=
  "//container.googleapis.com/projects/proj1/locations/us-central1-a/clusters/demo"

/-- A Kubernetes API in which the falcon-operator namespace is absent (404),
pods are Running whenever listed, no FalconDeployment exists, and every
write succeeds. -/
def apiFresh : KubeApi :=
  ⟨fun _ => .error (.apiException 404),
   fun _ => .ok ["Running"],
   .ok [],
   fun _ => .ok (),
   fun _ _ => .ok ()⟩

/-- A Kubernetes API in which the namespace exists with a pod and a
FalconDeployment already exists. -/
def apiDeployed : KubeApi :=
  ⟨fun _ => .ok (),
   fun _ => .ok ["Running"],
   .ok [.map [("kind", .str "FalconDeployment")]],
   fun _ => .ok (),
   fun _ _ => .ok ()⟩

/-- A Kubernetes API in which the namespace exists but its pod list is empty
at the first check and Running afterwards. -/
def apiEmptyNs : KubeApi :=
  ⟨fun _ => .ok (),
   fun i => if i = 0 then .ok [] else .ok ["Running"],
   .ok [],
   fun _ => .ok (),
   fun _ _ => .ok ()⟩

/-- A Kubernetes API whose namespace read and custom-resource list fail with
non-404 ApiExceptions. -/
def apiBroken : KubeApi :=
  ⟨fun _ => .error (.apiException 500),
   fun _ => .ok ["Running"],
   .error (.apiException 503),
   fun _ => .ok (),
   fun _ _ => .ok ()⟩

/-- A Kubernetes API in which the custom-resource list reports 404 (the CRD
is not installed). -/
def apiListGone : KubeApi :=
  ⟨fun _ => .error (.apiException 404),
   fun _ => .ok ["Running"],
   .error (.apiException 404),
   fun _ => .ok (),
   fun _ _ => .ok ()⟩

/-- A Kubernetes API in which no FalconDeployment exists but creating one
fails. -/
def apiCreateFail : KubeApi :=
  ⟨fun _ => .ok (),
   fun _ => .ok ["Running"],
   .ok [],
   fun _ => .ok (),
   fun _ _ => .error (.exn "create failed")⟩

theorem loop_exit (fetch : Nat → String) (fuel : Nat) (status : String) (c f s : Nat)
    (h : ¬(status ≠ "RUNNING" ∧ c ≤ MAX_CLUSTER_STATUS_CHECK_COUNT)) :
    cluster_status_loop fetch fuel status c f s = ⟨f, s, false, status⟩ := by
  rw [cluster_status_loop.eq_def]
  dsimp only
  rw [if_neg h]

theorem loop_step (fetch : Nat → String) (fuel : Nat) (status : String) (c f s : Nat)
    (h : status ≠ "RUNNING" ∧ c ≤ MAX_CLUSTER_STATUS_CHECK_COUNT) :
    cluster_status_loop fetch (fuel + 1) status c f s =
      if fetch f ∈ unmanageableStatuses then ⟨f + 1, s, true, fetch f⟩
      else cluster_status_loop fetch fuel (fetch f) (c + 1) (f + 1)
             (if fetch f = "PROVISIONING" then s + 1 else s) := by
  rw [cluster_status_loop.eq_def]
  dsimp only
  rw [if_pos h]

theorem prov_loop (fetch : Nat → String) (hf : ∀ i, fetch i = "PROVISIONING") :
    ∀ fuel c f s, c + fuel = MAX_CLUSTER_STATUS_CHECK_COUNT + 1 →
      cluster_status_loop fetch fuel "PROVISIONING" c f s =
        ⟨f + fuel, s + fuel, false, "PROVISIONING"⟩ := by
  intro fuel
  induction fuel with
  | zero =>
    intro c f s hc
    rw [loop_exit fetch 0 _ c f s (by simp; omega)]
    simp
  | succ fuel ih =>
    intro c f s hc
    rw [loop_step fetch fuel _ c f s ⟨by decide, by omega⟩]
    rw [hf f]
    rw [if_neg (by decide), if_pos rfl]
    rw [ih (c + 1) (f + 1) (s + 1) (by omega)]
    congr 1 <;> omega

theorem prov_run (fetch : Nat → String) (hf : ∀ i, fetch i = "PROVISIONING") :
    run_status_loop fetch =
      ⟨MAX_CLUSTER_STATUS_CHECK_COUNT + 1, MAX_CLUSTER_STATUS_CHECK_COUNT + 1,
       false, "PROVISIONING"⟩ := by
  rw [run_status_loop, loop_step fetch MAX_CLUSTER_STATUS_CHECK_COUNT _ 0 0 0 ⟨by decide, by decide⟩]
  rw [hf 0]
  rw [if_neg (by decide), if_pos rfl]
  rw [prov_loop fetch hf MAX_CLUSTER_STATUS_CHECK_COUNT 1 1 1 (by decide)]
  congr 1

theorem running_run (fetch : Nat → String) (h : fetch 0 = "RUNNING") :
    run_status_loop fetch = ⟨1, 0, false, "RUNNING"⟩ := by
  rw [run_status_loop, loop_step fetch MAX_CLUSTER_STATUS_CHECK_COUNT _ 0 0 0 ⟨by decide, by decide⟩]
  rw [h]
  rw [if_neg (by decide), if_neg (by decide)]
  rw [loop_exit fetch _ _ 1 1 0 (by simp)]

theorem unman_run (fetch : Nat → String) (h : fetch 0 ∈ unmanageableStatuses) :
    run_status_loop fetch = ⟨1, 0, true, fetch 0⟩ := by
  rw [run_status_loop, loop_step fetch MAX_CLUSTER_STATUS_CHECK_COUNT _ 0 0 0 ⟨by decide, by decide⟩]
  rw [if_pos h]

theorem main_proceeds (cfg : Config) (asset_name : String) (fetch : Nat → String)
    (api : KubeApi) (fuel : Nat) (ids : String × String × String)
    (hok : extract_identity asset_name = .ok ids)
    (hnu : (run_status_loop fetch).unmanageable = false) :
    (Handler.main cfg asset_name fetch api fuel).fetches = (run_status_loop fetch).fetches ∧
    (Handler.main cfg asset_name fetch api fuel).statusSleeps = (run_status_loop fetch).sleeps ∧
    (Handler.main cfg asset_name fetch api fuel).downloads = 1 ∧
    (Handler.main cfg asset_name fetch api fuel).usedClusterIdx =
      some ((run_status_loop fetch).fetches - 1) ∧
    (Handler.main cfg asset_name fetch api fuel).builtManifest =
      some (configure_falcon_deployment_manifest cfg true) ∧
    (Handler.main cfg asset_name fetch api fuel).applies = (deploy_operator api fuel).applies := by
  simp only [Handler.main, hok]
  simp only [hnu, Bool.false_eq_true, if_false]
  refine ⟨?_, ?_, ?_, ?_, ?_, ?_⟩ <;>
    (split <;> first
      | rfl
      | (split <;> rfl))

theorem node_autopilot_entries (cfg : Config) :
    dictGet (manifestNode (configure_falcon_deployment_manifest cfg true)) "backend" =
      some (.str "bpf") ∧
    dictGet (manifestNode (configure_falcon_deployment_manifest cfg true)) "gke" =
      some (.map [("autopilot", .bool true)]) ∧
    dictGet (manifestNode (configure_falcon_deployment_manifest cfg true)) "resources" =
      some (.map [("requests", .map [("cpu", .str "750m"), ("memory", .str "1.5Gi")])]) ∧
    dictGet (manifestNode (configure_falcon_deployment_manifest cfg true)) "tolerations" =
      some (.list [.map [("effect", .str "NoSchedule"), ("operator", .str "Equal"),
                         ("key", .str "kubernetes.io/arch"), ("value", .str "amd64")]]) := by
  rcases eq_or_ne cfg.FALCON_AUTO_UPDATE "off" with h1 | h1 <;>
  rcases eq_or_ne cfg.FALCON_UPDATE_POLICY "" with h2 | h2 <;>
  rcases eq_or_ne cfg.FALCON_SENSOR_VERSION "" with h3 | h3 <;>
  rcases eq_or_ne cfg.FALCON_SENSOR_TAGS "" with h4 | h4 <;>
  simp [configure_falcon_deployment_manifest, manifestNode, manifestSpec, subMap,
        dictGet, dictSet, dictHas, dictUpdate, dictSetIn, h1, h2, h3, h4]

/-- Claim C1: operator deployment is idempotent. When the falcon-operator
namespace exists and its pod list is non-empty, `deploy_operator` performs
zero `create_from_yaml` calls; when the namespace read reports 404, or the
namespace exists with an empty pod list, it performs exactly one apply of the
downloaded operator descriptor. -/
theorem C1_operator_deploy_idempotent (api : KubeApi) (fuel : Nat) (pods : List String) :
    (api.read_namespace "falcon-operator" = .ok () →
       api.list_namespaced_pod 0 = .ok pods → 0 < pods.length →
       (deploy_operator api fuel).applies = []) ∧
    (api.read_namespace "falcon-operator" = .error (.apiException 404) →
       (deploy_operator api fuel).applies = ["falcon_operator.yaml"]) ∧
    (api.read_namespace "falcon-operator" = .ok () →
       api.list_namespaced_pod 0 = .ok pods → pods.length = 0 →
       (deploy_operator api fuel).applies = ["falcon_operator.yaml"]) := by
  refine ⟨fun h1 h2 h3 => ?_, fun h1 => ?_, fun h1 h2 h3 => ?_⟩
  · simp [deploy_operator, check_resources_deployed, h1, h2, h3]
  · rcases hc : api.create_from_yaml "falcon_operator.yaml" with e | u <;>
      simp [deploy_operator, check_resources_deployed, h1, hc]
  · rcases hc : api.create_from_yaml "falcon_operator.yaml" with e | u <;>
      simp [deploy_operator, check_resources_deployed, h1, h2, h3, hc]

/-- Claim C1 witness at concrete cluster states: namespace populated (zero
applies), namespace absent (one apply), namespace present but empty (one
apply). -/
theorem C1_witness :
    (deploy_operator apiDeployed 1).applies = [] ∧
    (deploy_operator apiFresh 1).applies = ["falcon_operator.yaml"] ∧
    (deploy_operator apiEmptyNs 1).applies = ["falcon_operator.yaml"] :=
  ⟨(C1_operator_deploy_idempotent apiDeployed 1 ["Running"]).1 rfl rfl (by decide),
   (C1_operator_deploy_idempotent apiFresh 1 []).2.1 rfl,
   (C1_operator_deploy_idempotent apiEmptyNs 1 []).2.2 rfl rfl rfl⟩

/-- Claim C2: agent-descriptor deployment is first-writer-wins. When the
cluster-scoped FalconDeployment list is non-empty, `deploy_falcon_manifest`
performs zero create calls and returns normally; when it is empty (also via
a 404 from the list call), it performs exactly one create of the rendered
manifest in the falcon-operator namespace, and a create failure is
re-raised. -/
theorem C2_falcon_first_writer_wins (api : KubeApi) (m : YVal) (items : List YVal) (e : KubeErr) :
    (api.list_cluster_custom_object = .ok items → items ≠ [] →
       (deploy_falcon_manifest api m).creates = [] ∧
       (deploy_falcon_manifest api m).outcome = .ok ()) ∧
    (api.list_cluster_custom_object = .ok [] →
       (deploy_falcon_manifest api m).creates = [(m, "falcon-operator")]) ∧
    (api.list_cluster_custom_object = .error (.apiException 404) →
       (deploy_falcon_manifest api m).creates = [(m, "falcon-operator")]) ∧
    (api.list_cluster_custom_object = .ok [] →
       api.create_custom_object m "falcon-operator" = .error e →
       (deploy_falcon_manifest api m).outcome = .error e) := by
  refine ⟨fun h1 h2 => ?_, fun h1 => ?_, fun h1 => ?_, fun h1 h2 => ?_⟩
  · constructor <;>
      simp [deploy_falcon_manifest, list_falcon_deployments, h1, List.length_eq_zero, h2]
  · rcases hc : api.create_custom_object m "falcon-operator" with e2 | u <;>
      simp [deploy_falcon_manifest, list_falcon_deployments, h1, hc]
  · rcases hc : api.create_custom_object m "falcon-operator" with e2 | u <;>
      simp [deploy_falcon_manifest, list_falcon_deployments, h1, hc]
  · simp [deploy_falcon_manifest, list_falcon_deployments, h1, h2]

/-- Claim C2 witness at concrete cluster states: an existing FalconDeployment
(zero creates, normal return), an empty list (one create), and a failing
create (error propagated). -/
theorem C2_witness :
    (deploy_falcon_manifest apiDeployed (configure_falcon_deployment_manifest cfgW true)).creates
        = [] ∧
    (deploy_falcon_manifest apiDeployed (configure_falcon_deployment_manifest cfgW true)).outcome
        = .ok () ∧
    (deploy_falcon_manifest apiFresh (configure_falcon_deployment_manifest cfgW true)).creates
        = [(configure_falcon_deployment_manifest cfgW true, "falcon-operator")] ∧
    (deploy_falcon_manifest apiCreateFail (configure_falcon_deployment_manifest cfgW true)).outcome
        = .error (.exn "create failed") := by
  have h1 := (C2_falcon_first_writer_wins apiDeployed
    (configure_falcon_deployment_manifest cfgW true)
    [.map [("kind", .str "FalconDeployment")]] (.exn "create failed")).1 rfl (by simp)
  have h2 := (C2_falcon_first_writer_wins apiFresh
    (configure_falcon_deployment_manifest cfgW true) [] (.exn "create failed")).2.1 rfl
  have h3 := (C2_falcon_first_writer_wins apiCreateFail
    (configure_falcon_deployment_manifest cfgW true) [] (.exn "create failed")).2.2.2 rfl rfl
  exact ⟨h1.1, h1.2, h2, h3⟩

/-- Claim C8: a 404 is the only expected negative signal.
`check_resources_deployed` returns False on a 404 from the namespace read and
re-raises any other ApiException; `list_falcon_deployments` returns the empty
list on a 404 from the custom-resource list and re-raises any other
ApiException. -/
theorem C8_not_found_only_negative (api : KubeApi) (ns : String) (code : Nat) :
    (api.read_namespace ns = .error (.apiException 404) →
       check_resources_deployed api ns = .ok (false, 0)) ∧
    (api.read_namespace ns = .error (.apiException code) → code ≠ 404 →
       check_resources_deployed api ns = .error (.apiException code)) ∧
    (api.list_cluster_custom_object = .error (.apiException 404) →
       list_falcon_deployments api = .ok []) ∧
    (api.list_cluster_custom_object = .error (.apiException code) → code ≠ 404 →
       list_falcon_deployments api = .error (.apiException code)) := by
  refine ⟨fun h1 => ?_, fun h1 h2 => ?_, fun h1 => ?_, fun h1 h2 => ?_⟩
  · simp [check_resources_deployed, h1]
  · simp [check_resources_deployed, h1, h2]
  · simp [list_falcon_deployments, h1]
  · simp [list_falcon_deployments, h1, h2]

/-- Claim C8 witness at concrete responses: 404 on the namespace read (absent,
not an error), 500 on the namespace read (re-raised), 404 on the
custom-resource list (empty list), 503 on the custom-resource list
(re-raised). -/
theorem C8_witness :
    check_resources_deployed apiFresh "falcon-operator" = .ok (false, 0) ∧
    check_resources_deployed apiBroken "falcon-operator" = .error (.apiException 500) ∧
    list_falcon_deployments apiListGone = .ok [] ∧
    list_falcon_deployments apiBroken = .error (.apiException 503) :=
  ⟨(C8_not_found_only_negative apiFresh "falcon-operator" 500).1 rfl,
   (C8_not_found_only_negative apiBroken "falcon-operator" 500).2.1 rfl (by decide),
   (C8_not_found_only_negative apiListGone "falcon-operator" 404).2.2.1 rfl,
   (C8_not_found_only_negative apiBroken "falcon-operator" 503).2.2.2 rfl (by decide)⟩

/-- Claim C3: when the first fetched status is unmanageable (STOPPING, ERROR,
DEGRADED or STATUS_UNSPECIFIED), the handler returns normally after exactly
one status fetch, with no sleep, no manifest download, no apply and no
create. -/
theorem C3_unmanageable_silent_exit (cfg : Config) (asset_name : String)
    (fetch : Nat → String) (api : KubeApi) (fuel : Nat) (ids : String × String × String)
    (hok : extract_identity asset_name = .ok ids)
    (hst : fetch 0 ∈ unmanageableStatuses) :
    Handler.main cfg asset_name fetch api fuel = ⟨1, 0, 0, none, none, [], [], .returned⟩ := by
  simp only [Handler.main, hok]
  rw [unman_run fetch hst]
  rfl

/-- Claim C3 witness: a cluster whose first status is STOPPING. -/
theorem C3_witness :
    Handler.main cfgW assetW (fun _ => "STOPPING") apiFresh 1 =
      ⟨1, 0, 0, none, none, [], [], .returned⟩ :=
  C3_unmanageable_silent_exit cfgW assetW (fun _ => "STOPPING") apiFresh 1
    ("demo", "proj1", "us-central1-a") rfl (by decide)

/-- Claim C4 counterexample: with a cluster that reports PROVISIONING on every
fetch, the handler performs 21 status fetches, so the claimed bound of at
most MAX_CLUSTER_STATUS_CHECK_COUNT = 20 fetches is violated (the loop guard
`counter <= MAX_CLUSTER_STATUS_CHECK_COUNT` with the counter starting at 0
admits 21 iterations). -/
theorem C4_counterexample :
    ¬ ((Handler.main cfgW assetW (fun _ => "PROVISIONING") apiFresh 1).fetches ≤
        MAX_CLUSTER_STATUS_CHECK_COUNT) := by
  have hp := prov_run (fun _ => "PROVISIONING") (fun i => rfl)
  have h := main_proceeds cfgW assetW (fun _ => "PROVISIONING") apiFresh 1
    ("demo", "proj1", "us-central1-a") rfl (by rw [hp])
  rw [h.1, hp]
  decide

/-- Claim C4 as amended: for a cluster that reports PROVISIONING on every
fetch, the readiness loop performs exactly MAX_CLUSTER_STATUS_CHECK_COUNT + 1
= 21 status fetches (and as many sleeps), then exits the loop without raising
and proceeds to the manifest download and deployment using the cluster
reference of the last fetch (index 20), whose status is not RUNNING. -/
theorem C4_amended_provisioning_overruns_by_one (cfg : Config) (asset_name : String)
    (fetch : Nat → String) (api : KubeApi) (fuel : Nat) (ids : String × String × String)
    (hok : extract_identity asset_name = .ok ids)
    (hf : ∀ i, fetch i = "PROVISIONING") :
    (Handler.main cfg asset_name fetch api fuel).fetches =
      MAX_CLUSTER_STATUS_CHECK_COUNT + 1 ∧
    (Handler.main cfg asset_name fetch api fuel).statusSleeps =
      MAX_CLUSTER_STATUS_CHECK_COUNT + 1 ∧
    (Handler.main cfg asset_name fetch api fuel).downloads = 1 ∧
    (Handler.main cfg asset_name fetch api fuel).usedClusterIdx =
      some MAX_CLUSTER_STATUS_CHECK_COUNT ∧
    fetch MAX_CLUSTER_STATUS_CHECK_COUNT ≠ "RUNNING" ∧
    (Handler.main cfg asset_name fetch api fuel).outcome ≠ .raised .indexError := by
  have hp := prov_run fetch hf
  have h := main_proceeds cfg asset_name fetch api fuel ids hok (by rw [hp])
  refine ⟨?_, ?_, h.2.2.1, ?_, ?_, ?_⟩
  · rw [h.1, hp]
  · rw [h.2.1, hp]
  · rw [h.2.2.2.1, hp]
    rfl
  · rw [hf]
    decide
  · simp only [Handler.main, hok, hp]
    rw [if_neg (by decide)]
    rcases ho : (deploy_operator api fuel).outcome with s | _ | e
    · rcases hf2 : (deploy_falcon_manifest api
        (configure_falcon_deployment_manifest cfg true)).outcome with e2 | u <;>
        simp [ho, hf2]
    · simp [ho]
    · simp [ho]

/-- Claim C4 witness: the amended statement at a concrete always-PROVISIONING
cluster. -/
theorem C4_witness :
    (Handler.main cfgW assetW (fun _ => "PROVISIONING") apiFresh 1).fetches =
      MAX_CLUSTER_STATUS_CHECK_COUNT + 1 ∧
    (Handler.main cfgW assetW (fun _ => "PROVISIONING") apiFresh 1).statusSleeps =
      MAX_CLUSTER_STATUS_CHECK_COUNT + 1 ∧
    (Handler.main cfgW assetW (fun _ => "PROVISIONING") apiFresh 1).downloads = 1 ∧
    (Handler.main cfgW assetW (fun _ => "PROVISIONING") apiFresh 1).usedClusterIdx =
      some MAX_CLUSTER_STATUS_CHECK_COUNT ∧
    (fun _ => "PROVISIONING" : Nat → String) MAX_CLUSTER_STATUS_CHECK_COUNT ≠ "RUNNING" ∧
    (Handler.main cfgW assetW (fun _ => "PROVISIONING") apiFresh 1).outcome ≠
      .raised .indexError :=
  C4_amended_provisioning_overruns_by_one cfgW assetW (fun _ => "PROVISIONING") apiFresh 1
    ("demo", "proj1", "us-central1-a") rfl (fun _ => rfl)

/-- Claim C5: when the first fetched status is RUNNING, the readiness poller
terminates after exactly one status fetch with no sleep, and the handler
proceeds to the deployment sequence (downloads the operator manifest, builds
the FalconDeployment manifest, and uses the cluster object of that single
fetch). -/
theorem C5_running_immediate (cfg : Config) (asset_name : String) (fetch : Nat → String)
    (api : KubeApi) (fuel : Nat) (ids : String × String × String)
    (hok : extract_identity asset_name = .ok ids)
    (hrun : fetch 0 = "RUNNING") :
    (Handler.main cfg asset_name fetch api fuel).fetches = 1 ∧
    (Handler.main cfg asset_name fetch api fuel).statusSleeps = 0 ∧
    (Handler.main cfg asset_name fetch api fuel).downloads = 1 ∧
    (Handler.main cfg asset_name fetch api fuel).usedClusterIdx = some 0 ∧
    (Handler.main cfg asset_name fetch api fuel).builtManifest =
      some (configure_falcon_deployment_manifest cfg true) := by
  have hr := running_run fetch hrun
  have h := main_proceeds cfg asset_name fetch api fuel ids hok (by rw [hr])
  refine ⟨?_, ?_, h.2.2.1, ?_, h.2.2.2.2.1⟩
  · rw [h.1, hr]
  · rw [h.2.1, hr]
  · rw [h.2.2.2.1, hr]
    rfl

/-- Claim C5 witness: a cluster that is RUNNING on the first fetch. -/
theorem C5_witness :
    (Handler.main cfgW assetW (fun _ => "RUNNING") apiFresh 1).fetches = 1 ∧
    (Handler.main cfgW assetW (fun _ => "RUNNING") apiFresh 1).statusSleeps = 0 ∧
    (Handler.main cfgW assetW (fun _ => "RUNNING") apiFresh 1).downloads = 1 ∧
    (Handler.main cfgW assetW (fun _ => "RUNNING") apiFresh 1).usedClusterIdx = some 0 ∧
    (Handler.main cfgW assetW (fun _ => "RUNNING") apiFresh 1).builtManifest =
      some (configure_falcon_deployment_manifest cfgW true) :=
  C5_running_immediate cfgW assetW (fun _ => "RUNNING") apiFresh 1
    ("demo", "proj1", "us-central1-a") rfl rfl

/-- Claim C6: manifest building is deterministic. Identical configuration
values and the same autopilot flag yield the identical manifest dict and the
identical serialized output. -/
theorem C6_manifest_deterministic (cfg1 cfg2 : Config) (ap : Bool) (h : cfg1 = cfg2) :
    configure_falcon_deployment_manifest cfg1 ap = configure_falcon_deployment_manifest cfg2 ap ∧
    yaml_dump (configure_falcon_deployment_manifest cfg1 ap) =
      yaml_dump (configure_falcon_deployment_manifest cfg2 ap) := by
  subst h
  exact ⟨rfl, rfl⟩

/-- Claim C6 witness: determinism at a fully populated configuration. -/
theorem C6_witness :
    configure_falcon_deployment_manifest cfgFull true =
      configure_falcon_deployment_manifest cfgFull true ∧
    yaml_dump (configure_falcon_deployment_manifest cfgFull true) =
      yaml_dump (configure_falcon_deployment_manifest cfgFull true) :=
  C6_manifest_deterministic cfgFull cfgFull true rfl

/-- Claim C7: field placement in the built manifest. Sensor tags never occur
in the node sub-object and, when set, appear under spec.falcon; the version
pin and the advanced (auto-update / update-policy) settings never occur under
spec.falcon and, when configured, appear in the node sub-object. -/
theorem C7_field_placement (cfg : Config) (ap : Bool) :
    dictHas (manifestNode (configure_falcon_deployment_manifest cfg ap)) "tags" = false ∧
    dictHas (manifestFalcon (configure_falcon_deployment_manifest cfg ap)) "version" = false ∧
    dictHas (manifestFalcon (configure_falcon_deployment_manifest cfg ap)) "advanced" = false ∧
    (cfg.FALCON_SENSOR_TAGS ≠ "" →
      dictGet (manifestFalcon (configure_falcon_deployment_manifest cfg ap)) "tags" =
        some (.str cfg.FALCON_SENSOR_TAGS)) ∧
    (cfg.FALCON_SENSOR_VERSION ≠ "" →
      dictGet (manifestNode (configure_falcon_deployment_manifest cfg ap)) "version" =
        some (.str cfg.FALCON_SENSOR_VERSION)) ∧
    ((cfg.FALCON_AUTO_UPDATE ≠ "off" ∨ cfg.FALCON_UPDATE_POLICY ≠ "") →
      dictHas (manifestNode (configure_falcon_deployment_manifest cfg ap)) "advanced" = true) := by
  rcases eq_or_ne cfg.FALCON_AUTO_UPDATE "off" with h1 | h1 <;>
  rcases eq_or_ne cfg.FALCON_UPDATE_POLICY "" with h2 | h2 <;>
  rcases eq_or_ne cfg.FALCON_SENSOR_VERSION "" with h3 | h3 <;>
  rcases eq_or_ne cfg.FALCON_SENSOR_TAGS "" with h4 | h4 <;>
  cases ap <;>
  simp [configure_falcon_deployment_manifest, manifestNode, manifestFalcon, manifestSpec,
        subMap, dictGet, dictSet, dictHas, dictUpdate, dictSetIn, h1, h2, h3, h4]

/-- Claim C7 witness: placement at a fully populated configuration on an
autopilot cluster. -/
theorem C7_witness :
    dictHas (manifestNode (configure_falcon_deployment_manifest cfgFull true)) "tags" = false ∧
    dictHas (manifestFalcon (configure_falcon_deployment_manifest cfgFull true)) "version"
        = false ∧
    dictHas (manifestFalcon (configure_falcon_deployment_manifest cfgFull true)) "advanced"
        = false ∧
    dictGet (manifestFalcon (configure_falcon_deployment_manifest cfgFull true)) "tags" =
      some (.str "web,dev") ∧
    dictGet (manifestNode (configure_falcon_deployment_manifest cfgFull true)) "version" =
      some (.str "7.10.0-16303") ∧
    dictHas (manifestNode (configure_falcon_deployment_manifest cfgFull true)) "advanced"
        = true := by
  have h := C7_field_placement cfgFull true
  exact ⟨h.1, h.2.1, h.2.2.1, h.2.2.2.1 (by decide), h.2.2.2.2.1 (by decide),
         h.2.2.2.2.2 (Or.inl (by decide))⟩

/-- Claim C9: identity extraction. With fewer than nine slash-delimited
segments the extraction raises (and `main` re-raises) an IndexError; with at
least nine segments, segment 8 becomes the cluster name, segment 4 the
project id and segment 6 the zone. -/
theorem C9_identity_extraction (asset_name : String) :
    ((splitSegs asset_name.data).length < 9 →
       extract_identity asset_name = .error "IndexError: list index out of range" ∧
       ∀ cfg fetch api fuel,
         (Handler.main cfg asset_name fetch api fuel).outcome = .raised .indexError) ∧
    (9 ≤ (splitSegs asset_name.data).length →
       extract_identity asset_name = .ok
         (String.mk ((splitSegs asset_name.data).getD 8 []),
          String.mk ((splitSegs asset_name.data).getD 4 []),
          String.mk ((splitSegs asset_name.data).getD 6 []))) := by
  constructor
  · intro hlt
    have he : extract_identity asset_name = .error "IndexError: list index out of range" := by
      simp only [extract_identity]
      rw [if_neg (by omega)]
    refine ⟨he, fun cfg fetch api fuel => ?_⟩
    simp only [Handler.main, he]
  · intro hge
    simp only [extract_identity]
    rw [if_pos hge]

/-- Claim C9 witness: a two-segment asset name fails with the IndexError
through the handler; the nine-segment `assetW` yields its segments 8, 4
and 6. -/
theorem C9_witness :
    extract_identity "projects/p1" = .error "IndexError: list index out of range" ∧
    (Handler.main cfgW "projects/p1" (fun _ => "RUNNING") apiFresh 1).outcome =
      .raised .indexError ∧
    extract_identity assetW = .ok
      (String.mk ((splitSegs assetW.data).getD 8 []),
       String.mk ((splitSegs assetW.data).getD 4 []),
       String.mk ((splitSegs assetW.data).getD 6 [])) := by
  have h1 := (C9_identity_extraction "projects/p1").1 (by decide)
  have h2 := (C9_identity_extraction assetW).2 (by decide)
  exact ⟨h1.1, h1.2 cfgW (fun _ => "RUNNING") apiFresh 1, h2⟩

theorem main_built_manifest (cfg : Config) (asset_name : String) (fetch : Nat → String)
    (api : KubeApi) (fuel : Nat) :
    (Handler.main cfg asset_name fetch api fuel).builtManifest = none ∨
    (Handler.main cfg asset_name fetch api fuel).builtManifest =
      some (configure_falcon_deployment_manifest cfg true) := by
  rcases h : extract_identity asset_name with e | ids
  · left
    simp only [Handler.main, h]
  · by_cases hu : (run_status_loop fetch).unmanageable
    · left
      simp only [Handler.main, h, hu, if_true]
    · right
      exact (main_proceeds cfg asset_name fetch api fuel ids h
        (by simpa using hu)).2.2.2.2.1

/-- Claim C10: the handler fixes the autopilot flag to True unconditionally,
so every manifest it builds is the one rendered with `is_autopilot = True`,
and its node sub-object carries the full autopilot sub-config: backend bpf,
gke.autopilot = true, the cpu/memory resource requests, and the NoSchedule
toleration. -/
theorem C10_autopilot_unconditional (cfg : Config) (asset_name : String)
    (fetch : Nat → String) (api : KubeApi) (fuel : Nat) (m : YVal)
    (h : (Handler.main cfg asset_name fetch api fuel).builtManifest = some m) :
    m = configure_falcon_deployment_manifest cfg true ∧
    dictGet (manifestNode m) "backend" = some (.str "bpf") ∧
    dictGet (manifestNode m) "gke" = some (.map [("autopilot", .bool true)]) ∧
    dictGet (manifestNode m) "resources" =
      some (.map [("requests", .map [("cpu", .str "750m"), ("memory", .str "1.5Gi")])]) ∧
    dictGet (manifestNode m) "tolerations" =
      some (.list [.map [("effect", .str "NoSchedule"), ("operator", .str "Equal"),
                         ("key", .str "kubernetes.io/arch"), ("value", .str "amd64")]]) := by
  have hm : m = configure_falcon_deployment_manifest cfg true := by
    rcases main_built_manifest cfg asset_name fetch api fuel with h0 | h0
    · rw [h0] at h
      cases h
    · rw [h0] at h
      exact (Option.some.inj h).symm
  subst hm
  exact ⟨rfl, node_autopilot_entries cfg⟩

/-- Claim C10 witness: a concrete invocation that reaches the deployment
phase builds the autopilot manifest, whose node section carries the full
autopilot sub-config. -/
theorem C10_witness :
    configure_falcon_deployment_manifest cfgW true =
      configure_falcon_deployment_manifest cfgW true ∧
    dictGet (manifestNode (configure_falcon_deployment_manifest cfgW true)) "backend" =
      some (.str "bpf") ∧
    dictGet (manifestNode (configure_falcon_deployment_manifest cfgW true)) "gke" =
      some (.map [("autopilot", .bool true)]) ∧
    dictGet (manifestNode (configure_falcon_deployment_manifest cfgW true)) "resources" =
      some (.map [("requests", .map [("cpu", .str "750m"), ("memory", .str "1.5Gi")])]) ∧
    dictGet (manifestNode (configure_falcon_deployment_manifest cfgW true)) "tolerations" =
      some (.list [.map [("effect", .str "NoSchedule"), ("operator", .str "Equal"),
                         ("key", .str "kubernetes.io/arch"), ("value", .str "amd64")]]) := by
  have hb : (Handler.main cfgW assetW (fun _ => "RUNNING") apiFresh 1).builtManifest =
      some (configure_falcon_deployment_manifest cfgW true) :=
    (main_proceeds cfgW assetW (fun _ => "RUNNING") apiFresh 1
      ("demo", "proj1", "us-central1-a") rfl
      (by rw [running_run (fun _ => "RUNNING") rfl])).2.2.2.2.1
  exact C10_autopilot_unconditional cfgW assetW (fun _ => "RUNNING") apiFresh 1
    (configure_falcon_deployment_manifest cfgW true) hb
